import Mathlib

/-!
Verification of the multi-provider LLM orchestration core of the
Garefowl chatbot (GNOME Shell extension).  The JavaScript sources are
shallowly embedded: JSON values become an inductive `Json` type,
JavaScript property access (which throws on `null`/`undefined` bases)
is modelled in the `Except Unit` monad, and the callback-driven
orchestration loop of the extension becomes an explicit state-stepping
function over an `ExtState` record.  Time stamps (`new Date()...`) and
network/tool results are passed in as parameters, since they are the
only nondeterministic inputs of the relevant code paths.
-/

/-- JSON values.  Numbers are modelled as rationals (the source only ever
builds literals such as `1`, `0.95`, `4096`); `undefined` is represented
outside this type, as `Option Json` with `none` for `undefined`. -/
inductive Json where
  | null : Json
  | bool : Bool → Json
  | num : Rat → Json
  | str : String → Json
  | arr : List Json → Json
  | obj : List (String × Json) → Json

/-- First binding of a key in a JS object literal, as property lookup. -/
def jsLookup (k : String) : List (String × Json) → Option Json
  | [] => none
  | (k2, v) :: rest => if k2 = k then some v else jsLookup k rest

/-- JavaScript truthiness of a defined value. -/
def jsTruthyJson : Json → Bool
  | Json.null => false
  | Json.bool b => b
  | Json.num q => decide (q ≠ 0)
  | Json.str s => decide (s ≠ "")
  | Json.arr _ => true
  | Json.obj _ => true

/-- JavaScript truthiness of a possibly-`undefined` value. -/
def jsTruthy : Option Json → Bool
  | none => false
  | some j => jsTruthyJson j

/-- Property access `base.k` on a defined value: throws (`Except.error`)
when the base is `null`, yields `undefined` for absent keys and for
primitive bases. -/
def jsGetProp : Json → String → Except Unit (Option Json)
  | Json.null, _ => Except.error ()
  | Json.obj fs, k => Except.ok (jsLookup k fs)
  | _, _ => Except.ok none

/-- Property access `base.k` on a possibly-`undefined` base: throws when
the base is `undefined` or `null`. -/
def jsGet (v : Option Json) (k : String) : Except Unit (Option Json) :=
  match v with
  | none => Except.error ()
  | some j => jsGetProp j k

/-- Index access `base[i]`: throws on `null`/`undefined`, indexes arrays,
indexes string characters, and performs keyed lookup `"i"` on objects. -/
def jsIndex (v : Option Json) (i : Nat) : Except Unit (Option Json) :=
  match v with
  | none => Except.error ()
  | some Json.null => Except.error ()
  | some (Json.arr xs) => Except.ok (xs.get? i)
  | some (Json.str s) => Except.ok ((s.data.get? i).map (fun c => Json.str (String.mk [c])))
  | some (Json.obj fs) => Except.ok (jsLookup (toString i) fs)
  | some _ => Except.ok none

/-- Optional-chaining access `base?.k`: never throws; `null`/`undefined`
bases short-circuit to `undefined`. -/
def jsGetSafe (v : Option Json) (k : String) : Option Json :=
  match v with
  | none => none
  | some Json.null => none
  | some (Json.obj fs) => jsLookup k fs
  | some _ => none

/-- Optional-chaining index `base?.[i]`. -/
def jsIndexSafe (v : Option Json) (i : Nat) : Option Json :=
  match v with
  | none => none
  | some Json.null => none
  | some (Json.arr xs) => xs.get? i
  | some (Json.obj fs) => jsLookup (toString i) fs
  | some _ => none

/-- Strict equality test `v === "s"` of a value against a string literal. -/
def jsIsStr (v : Option Json) (s : String) : Bool :=
  match v with
  | some (Json.str t) => decide (t = s)
  | _ => false

/-- Template-literal stringification of a value, as in JS `` `${v}` ``.
Array/object rendering is approximated ("[object Object]" is exact for
plain objects); none of the verified claims evaluate those corners. -/
def jsTemplate : Option Json → String
  | none => "undefined"
  | some Json.null => "null"
  | some (Json.bool true) => "true"
  | some (Json.bool false) => "false"
  | some (Json.num q) => toString q
  | some (Json.str s) => s
  | some (Json.arr _) => ""
  | some (Json.obj _) => "[object Object]"

/-- Whitespace characters trimmed by JS `String.prototype.trim` (the
ASCII ones; exotic Unicode space classes are not modelled). -/
def jsWhitespace (c : Char) : Bool :=
  c = ' ' || c = '\t' || c = '\n' || c = '\r' || c = '\x0b' || c = '\x0c'

/-- JS `String.prototype.trim`. -/
def jsTrim (s : String) : String :=
  String.mk (((s.data.dropWhile jsWhitespace).reverse.dropWhile jsWhitespace).reverse)

/-- JS `String.prototype.startsWith`. -/
def jsStartsWith (s pre : String) : Bool :=
  pre.data.isPrefixOf s.data

/-- Substring containment at the character-list level, the decision
procedure behind JS `String.prototype.includes`. -/
def listContainsB (l pat : List Char) : Bool :=
  l.tails.any (fun t => pat.isPrefixOf t)

/-- JS `s.includes(pat)`. -/
def strContainsB (s pat : String) : Bool :=
  listContainsB s.data pat.data

/-- JS `s.split(sep)` for a single-character separator, at list level. -/
def splitOnChar (sep : Char) : List Char → List (List Char)
  | [] => [[]]
  | c :: cs =>
    let r := splitOnChar sep cs
    if c = sep then [] :: r
    else
      match r with
      | [] => [[c]]
      | h :: t => (c :: h) :: t

/-- JS `Array.prototype.join(" ")`. -/
def joinSpace : List String → String
  | [] => ""
  | [s] => s
  | s :: rest => s ++ " " ++ joinSpace rest

/-- JS `s.indexOf(pat)` (codepoint offsets), `none` for not found. -/
def firstIndexOfList : List Char → List Char → Option Nat
  | l, pat =>
    match l with
    | [] => if pat.isEmpty then some 0 else none
    | _ :: t =>
      if pat.isPrefixOf l then some 0
      else (firstIndexOfList t pat).map (· + 1)

/-- JS `s.toLowerCase()` (ASCII letters). -/
def jsToLower (s : String) : String :=
  String.mk (s.data.map Char.toLower)

/-! ## YouTube transcript fetcher (`YouTubeTranscriptFetcher`) -/

/-- Character class `[a-zA-Z0-9_-]` of the video-id regexes. -/
def idChar (c : Char) : Bool :=
  c.isAlpha || c.isDigit || c = '_' || c = '-'

/-- The literal alternatives of the first video-id regex,
`(?:youtube\.com\/watch\?v=|youtu\.be\/|youtube\.com\/embed\/)`. -/
def videoIdHosts : List (List Char) :=
  ["youtube.com/watch?v=".data, "youtu.be/".data, "youtube.com/embed/".data]

/-- Attempt to match one alternative followed by `[a-zA-Z0-9_-]{11}` at the
start of `l`; the capture group is the 11 matched characters. -/
def matchAfter (p l : List Char) : Option (List Char) :=
  if p.isPrefixOf l then
    if ((l.drop p.length).take 11).length = 11 && ((l.drop p.length).take 11).all idChar then
      some ((l.drop p.length).take 11)
    else none
  else none

/-- First `some` produced by `f` along a list (regex alternation order). -/
def firstSome {α β : Type} (f : α → Option β) : List α → Option β
  | [] => none
  | a :: as => match f a with
    | some b => some b
    | none => firstSome f as

/-- Leftmost match of the first video-id regex over the input. -/
def findVideoId : List Char → Option (List Char)
  | [] => none
  | c :: rest =>
    match firstSome (fun p => matchAfter p (c :: rest)) videoIdHosts with
    | some cap => some cap
    | none => findVideoId rest

/-- `YouTubeTranscriptFetcher.extractVideoId`: the first regex is tried
anywhere in the string; the second, `^([a-zA-Z0-9_-]{11})$`, accepts a
bare 11-character id. -/
def extractVideoId (url : String) : Option String :=
  match findVideoId url.data with
  | some cap => some (String.mk cap)
  | none =>
    if url.data.length = 11 && url.data.all idChar then some url else none

/-- Observable first step of `YouTubeTranscriptFetcher.fetchTranscript`:
either the early `Invalid YouTube URL` error (no subprocess spawned) or
the spawn of `yt-dlp` for the extracted id.  The rest of the function is
file/process I/O outside the shallow embedding. -/
inductive FetchAction where
  | invalidUrl : FetchAction
  | spawn : String → FetchAction

/-- Control flow of `fetchTranscript` up to the subprocess launch. -/
def fetchTranscriptAction (videoUrl : String) : FetchAction :=
  match extractVideoId videoUrl with
  | none => FetchAction.invalidUrl
  | some id => FetchAction.spawn id

/-- Removal of the first `>` and everything before it, used by the
HTML-tag stripper; `none` when the list has no `>`. -/
def afterGt (l : List Char) : Option (List Char) :=
  match l.dropWhile (fun c => c ≠ '>') with
  | [] => none
  | _ :: tl => some tl

/-- Global replacement of the regex `<[^>]*>` by the empty string: each
match runs from a `<` to the nearest following `>`; a `<` with no later
`>` is kept verbatim.  The recursion consumes at least one character per
step, so `fuel` is a structural bound (instantiated with the input
length by `stripTags`). -/
def stripTagsFuel : Nat → List Char → List Char
  | _, [] => []
  | 0, l => l
  | fuel + 1, c :: rest =>
    if c = '<' then
      match afterGt rest with
      | some rem => stripTagsFuel fuel rem
      | none => c :: stripTagsFuel fuel rest
    else c :: stripTagsFuel fuel rest

/-- The tag stripper with its sufficient fuel. -/
def stripTags (l : List Char) : List Char := stripTagsFuel l.length l

/-- String-level wrapper of `stripTags`. -/
def stripTagsStr (s : String) : String := String.mk (stripTags s.data)

/-- Loop body of `YouTubeTranscriptFetcher._parseVTT`: trim, keep lines
that are nonempty, contain no `-->`, do not start with `WEBVTT` and are
not purely numeric; strip tags, re-trim, and push unless empty or
already collected anywhere before (`!textLines.includes(cleaned)`). -/
def parseVTTStep (acc : List String) (rawLine : String) : List String :=
  let line := jsTrim rawLine
  if line != "" && !(strContainsB line "-->") && !(jsStartsWith line "WEBVTT")
      && !(line.data.all Char.isDigit) then
    let cleaned := jsTrim (stripTagsStr line)
    if cleaned != "" && !(acc.contains cleaned) then acc ++ [cleaned] else acc
  else acc

/-- `YouTubeTranscriptFetcher._parseVTT`. -/
def parseVTT (vttContent : String) : String :=
  joinSpace (((splitOnChar '\n' vttContent.data).map String.mk).foldl parseVTTStep [])

/-- Modelled from the claim (C8) wording: the same pipeline but
deduplicating only *consecutive* identical lines, for comparison with
the source's global deduplication. -/
def specParseVTTConsecutive (vttContent : String) : String :=
  joinSpace (((splitOnChar '\n' vttContent.data).map String.mk).foldl
    (fun acc rawLine =>
      let line := jsTrim rawLine
      if line != "" && !(strContainsB line "-->") && !(jsStartsWith line "WEBVTT")
          && !(line.data.all Char.isDigit) then
        let cleaned := jsTrim (stripTagsStr line)
        if cleaned != "" && !(acc.getLast? == some cleaned) then acc ++ [cleaned] else acc
      else acc) [])

/-- Per-line filter/cleanup of `_parseVTT`, separated from the
deduplication: `some` is a retained cleaned line. -/
def cleanLine (rawLine : String) : Option String :=
  let line := jsTrim rawLine
  if line != "" && !(strContainsB line "-->") && !(jsStartsWith line "WEBVTT")
      && !(line.data.all Char.isDigit) then
    let cleaned := jsTrim (stripTagsStr line)
    if cleaned != "" then some cleaned else none
  else none

/-- Keep-first global deduplication. -/
def dedupKeepFirst (ls : List String) : List String :=
  ls.foldl (fun acc l => if acc.contains l then acc else acc ++ [l]) []

/-- `YouTubeTranscriptFetcher.formatTranscript` (the `${videoId}` template
renders `null` when extraction fails). -/
def formatTranscript (videoUrl transcript : String) : String :=
  "[YOUTUBE VIDEO TRANSCRIPT]\n\nVideo: https://www.youtube.com/watch?v=" ++
    (match extractVideoId videoUrl with
     | some id => id
     | none => "null") ++
    "\n\nTranscript:\n" ++ transcript ++
    "\n\n[END TRANSCRIPT]\n\nPlease summarize the above video transcript."

/-! ## SearXNG web-search client (`SearXNGSearchClient`) -/

/-- One parsed search record, `{ title, snippet, url }`.  `title` and
`url` are the raw JSON values found truthy; `snippet` is
`result.content || ''`. -/
structure SearchRec where
  title : Json
  snippet : Json
  url : Json

/-- Loop body of `_parseResults`: `result.title && result.url` with JS
short-circuit evaluation (the `url` property is only read when `title`
is truthy), pushing `{title, snippet: content || '', url}`. -/
def parseResultsLoop : List Json → List SearchRec → Except Unit (List SearchRec)
  | [], acc => Except.ok acc
  | r :: rs, acc =>
    match jsGetProp r "title" with
    | Except.error e => Except.error e
    | Except.ok t =>
      if jsTruthy t then
        match jsGetProp r "url" with
        | Except.error e => Except.error e
        | Except.ok u =>
          if jsTruthy u then
            match jsGetProp r "content", t, u with
            | Except.error e, _, _ => Except.error e
            | Except.ok c, some jt, some ju =>
              parseResultsLoop rs (acc ++
                [⟨jt, (match c with
                       | some jc => if jsTruthyJson jc then jc else Json.str ""
                       | none => Json.str ""), ju⟩])
            | Except.ok _, _, _ => parseResultsLoop rs acc
          else parseResultsLoop rs acc
      else parseResultsLoop rs acc

/-- `SearXNGSearchClient._parseResults`: examines at most the first 5
entries of `data.results` (`i < Math.min(length, 5)`), returns `[]`
when `results` is missing or not an array. -/
def parseResults (data : Json) : Except Unit (List SearchRec) :=
  match jsGetProp data "results" with
  | Except.error e => Except.error e
  | Except.ok r =>
    match r with
    | some (Json.arr rs) => parseResultsLoop (rs.take 5) []
    | _ => Except.ok []

/-- One numbered entry of `_formatResults`. -/
def formatEntry (index : Nat) (result : SearchRec) : String :=
  toString (index + 1) ++ ". " ++ jsTemplate (some result.title) ++ "\n" ++
  "   Source: " ++ jsTemplate (some result.url) ++ "\n" ++
  (if jsTruthyJson result.snippet then "   " ++ jsTemplate (some result.snippet) ++ "\n"
   else "") ++ "\n"

/-- The `forEach` accumulation of `_formatResults`. -/
def formatLoop : List SearchRec → Nat → String → String
  | [], _, acc => acc
  | r :: rs, i, acc => formatLoop rs (i + 1) (acc ++ formatEntry i r)

/-- `SearXNGSearchClient._formatResults`; `now` stands for the
`toLocaleString` rendering of `new Date()`. -/
def formatResults (results : List SearchRec) (query now : String) : String :=
  if results.length = 0 then
    "[WEB SEARCH RESULTS - Current time: " ++ now ++ "]\n\nSearch query: \"" ++ query ++
      "\"\n\nNo results found. Please answer based on your general knowledge and inform the user that you don\x27t have access to current real-time data for this query.\n\n[END SEARCH RESULTS]"
  else
    formatLoop results 0
      ("[WEB SEARCH RESULTS - Current time: " ++ now ++ "]\n\nSearch query: \"" ++ query ++
        "\"\n\n") ++
      "[END SEARCH RESULTS]\n\nPlease use the above information to answer the user\x27s question."

/-! ## Provider adapters (`src/lib/llmProviders.js`): endpoints, transport
error messages, response-text extraction, tool-call extraction -/

/-- `AnthropicProvider._getEndpointUrl` (ignores the stored key/model). -/
def anthropicGetEndpointUrl (_apiKey _model : String) : String :=
  "https://api.anthropic.com/v1/messages"

/-- `OpenAIProvider._getEndpointUrl`. -/
def openaiGetEndpointUrl (_apiKey _model : String) : String :=
  "https://api.openai.com/v1/chat/completions"

/-- `GeminiProvider._getEndpointUrl`: the API key is interpolated into the
query string of the URL. -/
def geminiGetEndpointUrl (apiKey model : String) : String :=
  "https://generativelanguage.googleapis.com/v1beta/models/" ++ model ++
    ":generateContent?key=" ++ apiKey

/-- `OpenRouterProvider._getEndpointUrl`. -/
def openrouterGetEndpointUrl (_apiKey _model : String) : String :=
  "https://openrouter.ai/api/v1/chat/completions"

/-- `GroqProvider._getEndpointUrl`. -/
def groqGetEndpointUrl (_apiKey _model : String) : String :=
  "https://api.groq.com/openai/v1/chat/completions"

/-- `OllamaProvider._getEndpointUrl`. -/
def ollamaGetEndpointUrl (_apiKey _model : String) : String :=
  "http://127.0.0.1:11434/api/chat"

/-- Diagnostic message built by `LLMProvider.sendRequest` on a transport
(connection) failure. -/
def networkErrorMessage (emsg url : String) : String :=
  "Network error: " ++ emsg ++ "\nURL: " ++ url

/-- Diagnostic message for an empty response body. -/
def noDataErrorMessage (url : String) : String :=
  "No response data received\nURL: " ++ url

/-- Diagnostic message for a JSON parse failure of a 200 response.
`req` is `JSON.stringify(requestBody)` and `raw` the undecodable body. -/
def parseErrorMessage (emsg url req raw : String) : String :=
  "Failed to parse JSON: " ++ emsg ++ "\nURL: " ++ url ++ "\nRequest: " ++ req ++
    "\nRaw: " ++ raw

/-- Diagnostic message for a non-200 HTTP status. -/
def httpErrorMessage (status : Nat) (url req raw : String) : String :=
  "HTTP error " ++ toString status ++ "\nURL: " ++ url ++ "\nRequest: " ++ req ++
    "\nResponse: " ++ raw

/-- Inner loop of `AnthropicProvider._extractResponseText`: first block
with `type === 'text'` and truthy `text`. -/
def anthropicFindText : List Json → Except Unit (Option Json)
  | [] => Except.ok (some (Json.str ""))
  | b :: bs =>
    match jsGetProp b "type" with
    | Except.error e => Except.error e
    | Except.ok ty =>
      if jsIsStr ty "text" then
        match jsGetProp b "text" with
        | Except.error e => Except.error e
        | Except.ok tx => if jsTruthy tx then Except.ok tx else anthropicFindText bs
      else anthropicFindText bs

/-- `AnthropicProvider._extractResponseText`: returns `''` when `content`
is missing or not an array, otherwise scans for the first text block. -/
def anthropicExtractResponseText (response : Json) : Except Unit (Option Json) :=
  match jsGetProp response "content" with
  | Except.error e => Except.error e
  | Except.ok c =>
    match c with
    | some (Json.arr blocks) => anthropicFindText blocks
    | _ => Except.ok (some (Json.str ""))

/-- `OpenAIProvider._extractResponseText`:
`response.choices[0].message.content` with no guards. -/
def openaiExtractResponseText (response : Json) : Except Unit (Option Json) :=
  match jsGetProp response "choices" with
  | Except.error e => Except.error e
  | Except.ok c =>
    match jsIndex c 0 with
    | Except.error e => Except.error e
    | Except.ok c0 =>
      match jsGet c0 "message" with
      | Except.error e => Except.error e
      | Except.ok m => jsGet m "content"

/-- `GeminiProvider._extractResponseText`:
`response.candidates[0].content.parts[0].text` with no guards. -/
def geminiExtractResponseText (response : Json) : Except Unit (Option Json) :=
  match jsGetProp response "candidates" with
  | Except.error e => Except.error e
  | Except.ok c =>
    match jsIndex c 0 with
    | Except.error e => Except.error e
    | Except.ok c0 =>
      match jsGet c0 "content" with
      | Except.error e => Except.error e
      | Except.ok ct =>
        match jsGet ct "parts" with
        | Except.error e => Except.error e
        | Except.ok p =>
          match jsIndex p 0 with
          | Except.error e => Except.error e
          | Except.ok p0 => jsGet p0 "text"

/-- `OpenRouterProvider._extractResponseText` (same body as OpenAI). -/
def openrouterExtractResponseText (response : Json) : Except Unit (Option Json) :=
  match jsGetProp response "choices" with
  | Except.error e => Except.error e
  | Except.ok c =>
    match jsIndex c 0 with
    | Except.error e => Except.error e
    | Except.ok c0 =>
      match jsGet c0 "message" with
      | Except.error e => Except.error e
      | Except.ok m => jsGet m "content"

/-- `GroqProvider._extractResponseText` (same body as OpenAI). -/
def groqExtractResponseText (response : Json) : Except Unit (Option Json) :=
  match jsGetProp response "choices" with
  | Except.error e => Except.error e
  | Except.ok c =>
    match jsIndex c 0 with
    | Except.error e => Except.error e
    | Except.ok c0 =>
      match jsGet c0 "message" with
      | Except.error e => Except.error e
      | Except.ok m => jsGet m "content"

/-- The reasoning delimiter handling of `OllamaProvider`: content after
the first `</think>` (8 characters long), trimmed; `none` when the tag
is absent. -/
def thinkSplit (s : String) : Option String :=
  match firstIndexOfList s.data "</think>".data with
  | some i => some (jsTrim (String.mk (s.data.drop (i + 8))))
  | none => none

/-- Fallback chain of `OllamaProvider._extractResponseText` after the
`message.content` shape: `response.response`, then the optional-chained
`choices`/`completions` shapes, then `''`. -/
def ollamaFallbackText (response : Json) : Except Unit (Option Json) :=
  match jsGetProp response "response" with
  | Except.error e => Except.error e
  | Except.ok r =>
    match r with
    | some (Json.str s) => Except.ok (some (Json.str s))
    | _ =>
      let cc := jsGetSafe (jsGetSafe (jsIndexSafe (jsGetSafe (some response) "choices") 0)
        "message") "content"
      if jsTruthy cc then Except.ok cc
      else
        let ct := jsGetSafe (jsIndexSafe (jsGetSafe (some response) "completions") 0) "text"
        if jsTruthy ct then Except.ok ct
        else Except.ok (some (Json.str ""))

/-- The value returned for a string `message.content`: the part after a
`</think>` tag when that part is nonempty, the whole content otherwise. -/
def ollamaThinkText (s : String) : Option Json :=
  match thinkSplit s with
  | some afterThink =>
    if afterThink ≠ "" then some (Json.str afterThink) else some (Json.str s)
  | none => some (Json.str s)

/-- `OllamaProvider._extractResponseText`. -/
def ollamaExtractResponseText (response : Json) : Except Unit (Option Json) :=
  match jsGetProp response "message" with
  | Except.error e => Except.error e
  | Except.ok m =>
    if jsTruthy m then
      match jsGet m "content" with
      | Except.error e => Except.error e
      | Except.ok c =>
        match c with
        | some (Json.str s) => Except.ok (ollamaThinkText s)
        | _ => ollamaFallbackText response
    else ollamaFallbackText response

/-- A normalized tool-call request `{ id, name, input }` as produced by
`_extractToolCalls`; fields keep the raw (possibly absent) JS values. -/
structure ToolCall where
  id : Option Json
  name : Option Json
  input : Option Json

/-- Inner loop of `AnthropicProvider._extractToolCalls`: the first block
with `type === 'tool_use'` yields a singleton list. -/
def anthropicFindToolUse : List Json → Except Unit (Option (List ToolCall))
  | [] => Except.ok none
  | b :: bs =>
    match jsGetProp b "type" with
    | Except.error e => Except.error e
    | Except.ok ty =>
      if jsIsStr ty "tool_use" then
        match jsGetProp b "id", jsGetProp b "name", jsGetProp b "input" with
        | Except.ok i, Except.ok n, Except.ok inp => Except.ok (some [⟨i, n, inp⟩])
        | _, _, _ => Except.error ()
      else anthropicFindToolUse bs

/-- `AnthropicProvider._extractToolCalls`: guarded only by truthiness of
`response.content`; iterating a truthy non-array (other than a string,
whose characters all fail the `type` test) throws. -/
def anthropicExtractToolCalls (response : Json) : Except Unit (Option (List ToolCall)) :=
  match jsGetProp response "content" with
  | Except.error e => Except.error e
  | Except.ok c =>
    if jsTruthy c then
      match c with
      | some (Json.arr blocks) => anthropicFindToolUse blocks
      | some (Json.str _) => Except.ok none
      | _ => Except.error ()
    else Except.ok none

/-! ## Request-body construction (`_generateRequestBody` per adapter) and
the tool descriptors of `constants.js` -/

/-- `WEB_SEARCH_TOOL.input_schema`. -/
def webSearchInputSchema : Json :=
  Json.obj [("type", Json.str "object"),
    ("properties", Json.obj [("query", Json.obj [("type", Json.str "string"),
      ("description", Json.str "Search query with relevant keywords. Be specific and include temporal terms like \x27today\x27, \x27current\x27, \x27latest\x27 when relevant.")])]),
    ("required", Json.arr [Json.str "query"])]

/-- `WEB_SEARCH_TOOL.description`. -/
def webSearchToolDescription : String :=
  "Search the web for current, real-time information. ALWAYS use this tool when the user asks about: current weather, today\x27s date/time, latest news, recent events, current stock prices, live sports scores, or anything containing words like \x27today\x27, \x27now\x27, \x27current\x27, \x27latest\x27, \x27recent\x27. This tool provides up-to-date information that you don\x27t have in your training data."

/-- `YOUTUBE_SUMMARY_TOOL.input_schema`. -/
def youtubeSummaryInputSchema : Json :=
  Json.obj [("type", Json.str "object"),
    ("properties", Json.obj [("video_url", Json.obj [("type", Json.str "string"),
      ("description", Json.str "YouTube video URL (e.g., https://www.youtube.com/watch?v=VIDEO_ID or https://youtu.be/VIDEO_ID)")])]),
    ("required", Json.arr [Json.str "video_url"])]

/-- `YOUTUBE_SUMMARY_TOOL.description`. -/
def youtubeSummaryToolDescription : String :=
  "Get transcript and summary of a YouTube video. Use this when user provides a YouTube URL or asks to summarize a YouTube video. The video must have subtitles/captions available."

/-- Anthropic-dialect tool list (`name`/`description`/`input_schema`). -/
def anthropicToolsJson : Json :=
  Json.arr [
    Json.obj [("name", Json.str "web_search"),
      ("description", Json.str webSearchToolDescription),
      ("input_schema", webSearchInputSchema)],
    Json.obj [("name", Json.str "youtube_summary"),
      ("description", Json.str youtubeSummaryToolDescription),
      ("input_schema", youtubeSummaryInputSchema)]]

/-- OpenAI-dialect tool list (nested `function` wrapper), shared verbatim
by the OpenAI, OpenRouter, Groq and Ollama request builders. -/
def openaiStyleToolsJson : Json :=
  Json.arr [
    Json.obj [("type", Json.str "function"),
      ("function", Json.obj [("name", Json.str "web_search"),
        ("description", Json.str webSearchToolDescription),
        ("parameters", webSearchInputSchema)])],
    Json.obj [("type", Json.str "function"),
      ("function", Json.obj [("name", Json.str "youtube_summary"),
        ("description", Json.str youtubeSummaryToolDescription),
        ("parameters", youtubeSummaryInputSchema)])]]

/-- Gemini-dialect tool list (`function_declarations` wrapper). -/
def geminiToolsJson : Json :=
  Json.arr [Json.obj [("function_declarations", Json.arr [
    Json.obj [("name", Json.str "web_search"),
      ("description", Json.str webSearchToolDescription),
      ("parameters", webSearchInputSchema)],
    Json.obj [("name", Json.str "youtube_summary"),
      ("description", Json.str youtubeSummaryToolDescription),
      ("parameters", youtubeSummaryInputSchema)]])]]

/-- Canonical conversation roles (`MessageRoles.USER` / `ASSISTANT`). -/
inductive Role where
  | user : Role
  | assistant : Role
deriving DecidableEq

/-- One canonical conversation turn `{ role, content }`. -/
structure Turn where
  role : Role
  content : String

/-- The `msg.role === MessageRoles.USER ? "user" : "assistant"` mapping
used by the Anthropic, OpenAI, Groq and Ollama builders (and realized
identically by OpenRouter's verbatim pass-through of canonical turns). -/
def roleStrUA : Role → String
  | Role.user => "user"
  | Role.assistant => "assistant"

/-- The Gemini mapping: `msg.role === MessageRoles.USER ? "user" : "model"`. -/
def roleStrUM : Role → String
  | Role.user => "user"
  | Role.assistant => "model"

/-- A `{ role, content }` message object. -/
def pairJson (p : String × String) : Json :=
  Json.obj [("role", Json.str p.1), ("content", Json.str p.2)]

/-- Turn converted to a chat message object with the `"assistant"` vocabulary. -/
def chatMsgJson (t : Turn) : Json := pairJson (roleStrUA t.role, t.content)

/-- System-prompt text shared by the OpenAI, OpenRouter, Groq and Ollama
builders. -/
def toolSystemText : String :=
  "You have web_search and youtube_summary tools. Use them when appropriate. When messages contain [WEB SEARCH RESULTS] or [YOUTUBE VIDEO TRANSCRIPT], answer ONLY using that data."

/-- Anthropic's `body.system` text. -/
def anthropicSystemText : String :=
  "You have access to web_search and youtube_summary tools. Use web_search for real-time info and youtube_summary when user provides YouTube URLs. When messages contain [WEB SEARCH RESULTS] or [YOUTUBE VIDEO TRANSCRIPT], answer ONLY using that data."

/-- Constant `supportsTools()` of the hosted providers. -/
def anthropicSupportsTools : Bool := true

/-- `OpenAIProvider.supportsTools`. -/
def openaiSupportsTools : Bool := true

/-- `GeminiProvider.supportsTools`. -/
def geminiSupportsTools : Bool := true

/-- `OpenRouterProvider.supportsTools`. -/
def openrouterSupportsTools : Bool := true

/-- `GroqProvider.supportsTools`. -/
def groqSupportsTools : Bool := true

/-- The model-family allow-list of `OllamaProvider.supportsTools`. -/
def ollamaToolModels : List String :=
  ["llama3.1", "llama3.2", "llama-3.1", "llama-3.2",
   "mistral", "mixtral", "ministral",
   "qwen2.5", "qwen-2.5",
   "command-r", "command-r-plus",
   "deepseek-r1"]

/-- `OllamaProvider.supportsTools`: case-insensitive substring match of
the configured model against the allow-list. -/
def ollamaSupportsTools (model : String) : Bool :=
  ollamaToolModels.any (fun m => strContainsB (jsToLower model) m)

/-- `AnthropicProvider._generateRequestBody`. -/
def anthropicGenerateRequestBody (model : String) (enableWebSearch : Bool)
    (history : List Turn) : Json :=
  Json.obj ([("model", Json.str model),
    ("messages", Json.arr (history.map chatMsgJson)),
    ("max_tokens", Json.num 4096)] ++
    (if enableWebSearch && anthropicSupportsTools then
      [("tools", anthropicToolsJson), ("system", Json.str anthropicSystemText)]
     else []))

/-- `OpenAIProvider._generateRequestBody` (system message unshifted when
web search is enabled). -/
def openaiGenerateRequestBody (model : String) (enableWebSearch : Bool)
    (history : List Turn) : Json :=
  let messages := (if enableWebSearch && openaiSupportsTools then
      [pairJson ("system", toolSystemText)] else []) ++ history.map chatMsgJson
  Json.obj ([("model", Json.str model),
    ("messages", Json.arr messages),
    ("temperature", Json.num 1),
    ("max_completion_tokens", Json.num 4096),
    ("top_p", Json.num 1),
    ("frequency_penalty", Json.num 0),
    ("presence_penalty", Json.num 0)] ++
    (if enableWebSearch && openaiSupportsTools then [("tools", openaiStyleToolsJson)]
     else []))

/-- The `[SYSTEM: ...]` preamble Gemini's builder splices into the text of
the first content part when web search is enabled. -/
def geminiSysPreamble : String :=
  "[SYSTEM: You have web_search and youtube_summary tools. Use them when appropriate. When messages contain [WEB SEARCH RESULTS] or [YOUTUBE VIDEO TRANSCRIPT], answer ONLY using that data.]\n\n"

/-- A Gemini `{ role, parts: [{ text }] }` content object. -/
def geminiPairJson (p : String × String) : Json :=
  Json.obj [("role", Json.str p.1),
    ("parts", Json.arr [Json.obj [("text", Json.str p.2)]])]

/-- Turn converted to a Gemini content object. -/
def geminiMsgJson (t : Turn) : Json := geminiPairJson (roleStrUM t.role, t.content)

/-- The `contents` list of `GeminiProvider._generateRequestBody`; the
source mutates `contents[0].parts[0].text` in place when web search is
enabled and the list is nonempty, modelled here by rebuilding the head. -/
def geminiContents (enableWebSearch : Bool) (history : List Turn) : List Json :=
  let contents := history.map geminiMsgJson
  if enableWebSearch && geminiSupportsTools && !contents.isEmpty then
    match history with
    | [] => contents
    | t :: ts => geminiMsgJson ⟨t.role, geminiSysPreamble ++ t.content⟩ :: ts.map geminiMsgJson
  else contents

/-- `GeminiProvider._generateRequestBody`. -/
def geminiGenerateRequestBody (_model : String) (enableWebSearch : Bool)
    (history : List Turn) : Json :=
  Json.obj ([("contents", Json.arr (geminiContents enableWebSearch history)),
    ("generationConfig", Json.obj [("temperature", Json.num 1),
      ("topK", Json.num 40),
      ("topP", Json.num 0.95),
      ("maxOutputTokens", Json.num 8192),
      ("responseMimeType", Json.str "text/plain")])] ++
    (if enableWebSearch && geminiSupportsTools then [("tools", geminiToolsJson)] else []))

/-- `OpenRouterProvider._generateRequestBody`: `[...history]` passes the
canonical turns through verbatim (their `{role, content}` shape equals
`chatMsgJson` on canonical roles), optionally behind a system message. -/
def openrouterGenerateRequestBody (model : String) (enableWebSearch : Bool)
    (history : List Turn) : Json :=
  let messages := (if enableWebSearch && openrouterSupportsTools then
      [pairJson ("system", toolSystemText)] else []) ++ history.map chatMsgJson
  Json.obj ([("messages", Json.arr messages),
    ("model", Json.str model)] ++
    (if enableWebSearch && openrouterSupportsTools then [("tools", openaiStyleToolsJson)]
     else []))

/-- `GroqProvider._generateRequestBody`. -/
def groqGenerateRequestBody (model : String) (enableWebSearch : Bool)
    (history : List Turn) : Json :=
  let messages := (if enableWebSearch && groqSupportsTools then
      [pairJson ("system", toolSystemText)] else []) ++ history.map chatMsgJson
  Json.obj ([("model", Json.str model),
    ("messages", Json.arr messages)] ++
    (if enableWebSearch && groqSupportsTools then [("tools", openaiStyleToolsJson)]
     else []))

/-- Message-pair list of `OllamaProvider._generateRequestBody`: filter to
canonical roles (identity on the two-valued `Role`), map with
`content || ''` (identity on strings used as contents), unshift a system
message when tools are on, and push a dummy empty user message when the
list is empty or does not end in a user message. -/
def ollamaMessagePairs (model : String) (enableWebSearch : Bool)
    (history : List Turn) : List (String × String) :=
  let messages := (if enableWebSearch && ollamaSupportsTools model then
      [("system", toolSystemText)] else []) ++
    history.map (fun t => (roleStrUA t.role, t.content))
  if messages.length = 0 || !(match messages.getLast? with
      | some p => decide (p.1 = "user")
      | none => false) then
    messages ++ [("user", "")]
  else messages

/-- `OllamaProvider._generateRequestBody`. -/
def ollamaGenerateRequestBody (model : String) (enableWebSearch : Bool)
    (history : List Turn) : Json :=
  Json.obj ([("model", Json.str model),
    ("messages", Json.arr ((ollamaMessagePairs model enableWebSearch history).map pairJson)),
    ("stream", Json.bool false)] ++
    (if enableWebSearch && ollamaSupportsTools model then [("tools", openaiStyleToolsJson)]
     else []))

/-! ## Orchestration loop (extension.js): `_handleUserInput`,
`_sendToLLM` response callback, `_handleToolCalls` -/

/-- `_maxToolCallDepth` (set in `_init`). -/
def maxToolCallDepth : Nat := 3

/-- Observable UI events: `displayMessage(role, text)` and
`displayError(text, offerSettingsLink)`. -/
inductive DisplayEvent where
  | message : Role → String → DisplayEvent
  | error : String → Bool → DisplayEvent

/-- Mutable extension state touched by the loop: `_history`,
`_toolCallDepth`, and the ordered log of display calls. -/
structure ExtState where
  history : List Turn
  toolCallDepth : Nat
  displayed : List DisplayEvent

/-- Environment abstracting the asynchronous collaborators: the search
client's callback value per query, the transcript fetcher's callback
value per URL, and the `toLocaleString` timestamp. -/
structure ToolEnv where
  searchResult : String → Except String String
  transcriptResult : String → Except String String
  now : String

/-- How one callback invocation ends: `halt` (input re-enabled, no new
request), `resend` (`_sendToLLM()` invoked again), or `thrown` (an
exception escapes the modelled block). -/
inductive StepOutcome where
  | halt : StepOutcome
  | resend : StepOutcome
  | thrown : StepOutcome

/-- The pluggable adapter surface the callback uses. -/
structure ProviderModel where
  extractToolCalls : Json → Except Unit (Option (List ToolCall))
  extractResponseText : Json → Except Unit (Option Json)

/-- The Anthropic adapter as a `ProviderModel`. -/
def anthropicProviderModel : ProviderModel :=
  ⟨anthropicExtractToolCalls, anthropicExtractResponseText⟩

/-- The user-role turn `_handleToolCalls` pushes after a successful web
search (the search client's formatted output is wrapped a second time). -/
def searchTurnContent (now results : String) : String :=
  "[WEB SEARCH RESULTS - Current time: " ++ now ++ "]\n\n" ++ results ++
    "\n\n[END SEARCH RESULTS]\n\nUsing ONLY the search results above (which are current as of " ++
    now ++ "), please answer the original question. Do not use your training data. If the search results don\x27t contain the answer, say so."

/-- Progress message displayed before a web search. -/
def searchingMessage (query : String) : String :=
  "🔍 Searching the web for: \"" ++ query ++ "\"..."

/-- The depth-limit error text of `_handleToolCalls`. -/
def searchLimitErrorText : String :=
  "Web search limit reached. Please try rephrasing your question."

/-- `_handleToolCalls(toolCalls, llmProvider, originalResponse)`:
dead-on-arrival depth check, `depth++`, then dispatch on
`toolCalls[0].name` with `web_search` / `youtube_summary` / unknown. -/
def handleToolCalls (env : ToolEnv) (toolCalls : List ToolCall) (st : ExtState) :
    ExtState × StepOutcome :=
  if st.toolCallDepth ≥ maxToolCallDepth then
    ({ st with displayed := st.displayed ++ [DisplayEvent.error searchLimitErrorText false] },
      StepOutcome.halt)
  else
    let st1 : ExtState := { st with toolCallDepth := st.toolCallDepth + 1 }
    match toolCalls.head? with
    | none => (st1, StepOutcome.thrown)
    | some toolCall =>
      if jsIsStr toolCall.name "web_search" then
        match jsGet toolCall.input "query" with
        | Except.error _ => (st1, StepOutcome.thrown)
        | Except.ok q =>
          let query := jsTemplate q
          let st2 : ExtState := { st1 with
            displayed := st1.displayed ++ [DisplayEvent.message Role.assistant
              (searchingMessage query)] }
          match env.searchResult query with
          | Except.error emsg =>
            ({ st2 with
                displayed := st2.displayed ++
                  [DisplayEvent.error ("Web search failed: " ++ emsg) false],
                toolCallDepth := 0 }, StepOutcome.halt)
          | Except.ok results =>
            ({ st2 with
                history := st2.history ++
                  [⟨Role.user, searchTurnContent env.now results⟩] }, StepOutcome.resend)
      else if jsIsStr toolCall.name "youtube_summary" then
        match jsGet toolCall.input "video_url" with
        | Except.error _ => (st1, StepOutcome.thrown)
        | Except.ok vu =>
          let videoUrl := jsTemplate vu
          let st2 : ExtState := { st1 with
            displayed := st1.displayed ++ [DisplayEvent.message Role.assistant
              "📺 Fetching YouTube video transcript..."] }
          match env.transcriptResult videoUrl with
          | Except.error emsg =>
            ({ st2 with
                displayed := st2.displayed ++
                  [DisplayEvent.error ("YouTube transcript fetch failed: " ++ emsg) false],
                toolCallDepth := 0 }, StepOutcome.halt)
          | Except.ok transcript =>
            ({ st2 with
                history := st2.history ++
                  [⟨Role.user, formatTranscript videoUrl transcript⟩] }, StepOutcome.resend)
      else
        ({ st1 with
            displayed := st1.displayed ++
              [DisplayEvent.error ("Unknown tool requested: " ++
                jsTemplate toolCall.name) false],
            toolCallDepth := 0 }, StepOutcome.halt)

/-- Fallback text shown and stored when the response yields no usable text. -/
def placeholderText : String := "[No response from LLM - this may be a parsing error]"

/-- The `textResponse` computation of the `_sendToLLM` callback: the
`typeof` dispatch, the `try`-protected extraction (a throw leaves the
initial `''`), and the `!textResponse || !textResponse.trim()`
placeholder check, whose `.trim()` itself throws on truthy
non-strings. -/
def responseTextOf (P : ProviderModel) (resp : Json) : Except Unit String :=
  let tv : Option Json :=
    match resp with
    | Json.str s => some (Json.str s)
    | Json.arr _ =>
      (match P.extractResponseText resp with
       | Except.error _ => some (Json.str "")
       | Except.ok v => v)
    | Json.obj _ =>
      (match P.extractResponseText resp with
       | Except.error _ => some (Json.str "")
       | Except.ok v => v)
    | _ => some (Json.str "")
  if !(jsTruthy tv) then Except.ok placeholderText
  else
    match tv with
    | some (Json.str s) =>
      Except.ok (if jsTrim s = "" then placeholderText else s)
    | _ => Except.error ()

/-- The response callback of `_sendToLLM`: tool calls are extracted
inside a `try` (null on throw) and handled only when nonempty, web
search is enabled and depth is below the maximum; otherwise the
response is treated as final text, displayed and appended to history. -/
def extCallback (P : ProviderModel) (env : ToolEnv) (enableWebSearch : Bool)
    (resp : Json) (st : ExtState) : ExtState × StepOutcome :=
  let toolCalls : Option (List ToolCall) :=
    match P.extractToolCalls resp with
    | Except.error _ => none
    | Except.ok v => v
  if 0 < (toolCalls.getD []).length ∧ enableWebSearch = true ∧
      st.toolCallDepth < maxToolCallDepth then
    handleToolCalls env (toolCalls.getD []) st
  else
    match responseTextOf P resp with
    | Except.error _ => (st, StepOutcome.thrown)
    | Except.ok txt =>
      ({ st with
        displayed := st.displayed ++ [DisplayEvent.message Role.assistant txt],
        history := st.history ++ [⟨Role.assistant, txt⟩] }, StepOutcome.halt)

/-- Iterated exchange: each `resend` issues the next provider request and
the environment supplies `responses i` to round `i`'s callback. -/
def runRounds (P : ProviderModel) (env : ToolEnv) (enableWebSearch : Bool)
    (responses : Nat → Json) : Nat → Nat → ExtState → ExtState
  | 0, _, st => st
  | fuel + 1, i, st =>
    match extCallback P env enableWebSearch (responses i) st with
    | (st2, StepOutcome.resend) => runRounds P env enableWebSearch responses fuel (i + 1) st2
    | (st2, _) => st2

/-- `_handleUserInput` (for non-blank input not starting with
`Thinking `): display and append the user turn, reset the depth counter,
then `_sendToLLM`, modelled by running the round loop on the updated
state. -/
def handleUserInput (P : ProviderModel) (env : ToolEnv) (enableWebSearch : Bool)
    (responses : Nat → Json) (fuel : Nat) (input : String) (st : ExtState) : ExtState :=
  if input = "" || jsStartsWith input "Thinking " then st
  else
    runRounds P env enableWebSearch responses fuel 0
      { st with
        displayed := st.displayed ++ [DisplayEvent.message Role.user input],
        history := st.history ++ [⟨Role.user, input⟩],
        toolCallDepth := 0 }

/-! ## Projections and validators used to state the request-body claims -/

/-- Top-level field of an object. -/
def getField (j : Json) (k : String) : Option Json :=
  match j with
  | Json.obj fs => jsLookup k fs
  | _ => none

/-- Read back a `{ role, content }` message as a pair of strings. -/
def msgPairOf : Json → Option (String × String)
  | Json.obj fs =>
    (match jsLookup "role" fs, jsLookup "content" fs with
     | some (Json.str r), some (Json.str c) => some (r, c)
     | _, _ => none)
  | _ => none

/-- Read back a Gemini `{ role, parts: [{ text }] }` content object. -/
def geminiPairOf : Json → Option (String × String)
  | Json.obj fs =>
    (match jsLookup "role" fs, jsLookup "parts" fs with
     | some (Json.str r), some (Json.arr (Json.obj pfs :: _)) =>
       (match jsLookup "text" pfs with
        | some (Json.str t) => some (r, t)
        | _ => none)
     | _, _ => none)
  | _ => none

/-- All-or-nothing traversal of a list under a partial projection. -/
def mapOption {α β : Type} (f : α → Option β) : List α → Option (List β)
  | [] => some []
  | j :: js =>
    match f j, mapOption f js with
    | some p, some ps => some (p :: ps)
    | _, _ => none

/-- The `(role, content)` pairs of a body's `messages` array. -/
def msgsProj (body : Json) : Option (List (String × String)) :=
  match getField body "messages" with
  | some (Json.arr xs) => mapOption msgPairOf xs
  | _ => none

/-- The `(role, text-of-first-part)` pairs of a Gemini body's `contents`. -/
def contentsProj (body : Json) : Option (List (String × String)) :=
  match getField body "contents" with
  | some (Json.arr xs) => mapOption geminiPairOf xs
  | _ => none

/-- Modelled from the claim (C7) wording "structurally valid
(schema-conformant) request body": an object with a string `model` and a
`messages` array of role/content string objects. -/
def isValidChatBody (body : Json) : Bool :=
  (match getField body "model" with
   | some (Json.str _) => true
   | _ => false) &&
  (match getField body "messages" with
   | some (Json.arr xs) => xs.all (fun j => (msgPairOf j).isSome)
   | _ => false)

/-- Modelled from the claim (C7) wording, Gemini dialect: an object with a
`contents` array of role/parts objects and a `generationConfig` object. -/
def isValidGeminiBody (body : Json) : Bool :=
  (match getField body "contents" with
   | some (Json.arr xs) => xs.all (fun j => (geminiPairOf j).isSome)
   | _ => false) &&
  (match getField body "generationConfig" with
   | some (Json.obj _) => true
   | _ => false)

/-- Canonical turn to role/content pair, used to state the round-trip
projection results. -/
def turnPair (t : Turn) : String × String := (roleStrUA t.role, t.content)

/-- Canonical turn to Gemini role/text pair. -/
def turnPairG (t : Turn) : String × String := (roleStrUM t.role, t.content)

/-- An Anthropic-shaped response whose only content block is a
`web_search` tool call (no text block), used for the depth-limit
scenario. -/
def anthropicToolCallResponse : Json :=
  Json.obj [("content", Json.arr [Json.obj [("type", Json.str "tool_use"),
    ("id", Json.str "toolu_1"), ("name", Json.str "web_search"),
    ("input", Json.obj [("query", Json.str "q")])]])]

/-! ## Helper lemmas -/

theorem strData_append (s t : String) : (s ++ t).data = s.data ++ t.data :=
  String.data_append s t

theorem listContainsB_iff (l pat : List Char) :
    listContainsB l pat = true ↔ pat <:+: l := by
  unfold listContainsB
  rw [List.any_eq_true]
  constructor
  · rintro ⟨t, ht, hp⟩
    rw [List.mem_tails] at ht
    rw [ List.isPrefixOf_iff_prefix] at hp
    exact (List.infix_iff_prefix_suffix).mpr ⟨t, hp, ht⟩
  · intro h
    obtain ⟨t, hp, ht⟩ := (List.infix_iff_prefix_suffix).mp h
    exact ⟨t, (List.mem_tails t l).mpr ht, List.isPrefixOf_iff_prefix.mpr hp⟩

theorem strContainsB_iff (s pat : String) :
    strContainsB s pat = true ↔ pat.data <:+: s.data := listContainsB_iff _ _

theorem strContainsB_of_eq_append {s pat : String} (a b : String)
    (h : s = a ++ pat ++ b) : strContainsB s pat = true := by
  rw [strContainsB_iff, h, strData_append, strData_append]
  exact ⟨a.data, b.data, rfl⟩

theorem strContainsB_suffix (a pat : String) : strContainsB (a ++ pat) pat = true := by
  rw [strContainsB_iff, strData_append]
  exact ⟨a.data, [], by simp⟩

theorem strContainsB_mono_right {c : String} {pat : String} (b : String)
    (h : strContainsB c pat = true) : strContainsB (c ++ b) pat = true := by
  rw [strContainsB_iff, strData_append]
  rw [strContainsB_iff] at h
  obtain ⟨s, t, hst⟩ := h
  exact ⟨s, t ++ b.data, by rw [← hst]; simp⟩

theorem strContainsB_mono_left {c : String} {pat : String} (a : String)
    (h : strContainsB c pat = true) : strContainsB (a ++ c) pat = true := by
  rw [strContainsB_iff, strData_append]
  rw [strContainsB_iff] at h
  obtain ⟨s, t, hst⟩ := h
  exact ⟨a.data ++ s, t, by rw [← hst]; simp⟩

theorem strAppend_assoc (a b c : String) : a ++ b ++ c = a ++ (b ++ c) := by
  apply String.ext
  simp [strData_append]

theorem firstSome_spec {α β : Type} {f : α → Option β} {l : List α} {b : β}
    (h : firstSome f l = some b) : ∃ a ∈ l, f a = some b := by
  induction l with
  | nil => simp [firstSome] at h
  | cons a as ih =>
    unfold firstSome at h
    split at h
    · rename_i b2 hf
      exact ⟨a, List.mem_cons_self a as, by rw [hf]; exact h⟩
    · rename_i hf
      obtain ⟨a2, ha2, hfa2⟩ := ih h
      exact ⟨a2, List.mem_cons_of_mem a ha2, hfa2⟩

theorem matchAfter_spec {p l cap : List Char} (h : matchAfter p l = some cap) :
    cap.length = 11 ∧ cap.all idChar = true := by
  unfold matchAfter at h
  split at h
  · split at h
    · rename_i hcond
      cases h
      simp only [Bool.and_eq_true, decide_eq_true_eq] at hcond
      exact ⟨hcond.1, hcond.2⟩
    · exact absurd h (by simp)
  · exact absurd h (by simp)

theorem findVideoId_spec {l cap : List Char} (h : findVideoId l = some cap) :
    cap.length = 11 ∧ cap.all idChar = true := by
  induction l with
  | nil => simp [findVideoId] at h
  | cons c rest ih =>
    unfold findVideoId at h
    cases hm : firstSome (fun p => matchAfter p (c :: rest)) videoIdHosts with
    | some cap2 =>
      rw [hm] at h
      cases h
      obtain ⟨p, _, hp⟩ := firstSome_spec hm
      exact matchAfter_spec hp
    | none =>
      rw [hm] at h
      exact ih h

/-! ## Claim theorems -/

/-- Claim C3, counterexample: the claim says transport-layer error
messages never contain the API key, but for the Gemini adapter the
endpoint URL itself embeds the key, so the network-failure diagnostic
for a concrete key contains that key verbatim. -/
theorem c3_counterexample :
    strContainsB
      (networkErrorMessage "timed out"
        (geminiGetEndpointUrl "SECRET_API_KEY_123" "gemini-pro"))
      "SECRET_API_KEY_123" = true :=
  strContainsB_of_eq_append
    "Network error: timed out\nURL: https://generativelanguage.googleapis.com/v1beta/models/gemini-pro:generateContent?key="
    "" (by rfl)

/-- Claim C3, amended: every transport error message carries the request
URL, and the parse/HTTP failure messages additionally carry the
serialized request body; the non-Gemini endpoint URLs are independent of
the API key (it travels in headers only, e.g. no key in the Anthropic
network-failure message below), but the Gemini endpoint URL embeds the
key, so Gemini diagnostics do contain it. -/
theorem c3_amended :
    (∀ emsg url : String, strContainsB (networkErrorMessage emsg url) url = true) ∧
    (∀ url : String, strContainsB (noDataErrorMessage url) url = true) ∧
    (∀ emsg url req raw : String,
      strContainsB (parseErrorMessage emsg url req raw) url = true ∧
      strContainsB (parseErrorMessage emsg url req raw) req = true) ∧
    (∀ status : Nat, ∀ url req raw : String,
      strContainsB (httpErrorMessage status url req raw) url = true ∧
      strContainsB (httpErrorMessage status url req raw) req = true) ∧
    (∀ apiKey model : String,
      strContainsB (geminiGetEndpointUrl apiKey model) apiKey = true) ∧
    (∀ k1 k2 m : String,
      anthropicGetEndpointUrl k1 m = anthropicGetEndpointUrl k2 m ∧
      openaiGetEndpointUrl k1 m = openaiGetEndpointUrl k2 m ∧
      openrouterGetEndpointUrl k1 m = openrouterGetEndpointUrl k2 m ∧
      groqGetEndpointUrl k1 m = groqGetEndpointUrl k2 m ∧
      ollamaGetEndpointUrl k1 m = ollamaGetEndpointUrl k2 m) ∧
    strContainsB
      (networkErrorMessage "timed out"
        (anthropicGetEndpointUrl "SECRET_API_KEY_123" "claude-3"))
      "SECRET_API_KEY_123" = false := by
  refine ⟨?_, ?_, ?_, ?_, ?_, ?_, ?_⟩
  · intro emsg url
    exact strContainsB_suffix _ _
  · intro url
    exact strContainsB_suffix _ _
  · intro emsg url req raw
    constructor
    · exact strContainsB_mono_right _ (strContainsB_mono_right _
        (strContainsB_mono_right _ (strContainsB_mono_right _ (strContainsB_suffix _ _))))
    · exact strContainsB_mono_right _ (strContainsB_mono_right _ (strContainsB_suffix _ _))
  · intro status url req raw
    constructor
    · exact strContainsB_mono_right _ (strContainsB_mono_right _
        (strContainsB_mono_right _ (strContainsB_mono_right _ (strContainsB_suffix _ _))))
    · exact strContainsB_mono_right _ (strContainsB_mono_right _ (strContainsB_suffix _ _))
  · intro apiKey model
    exact strContainsB_suffix _ _
  · intro k1 k2 m
    exact ⟨rfl, rfl, rfl, rfl, rfl⟩
  · rfl

/-- Claim C10: `extractVideoId` returns `null` or an 11-character string
over `[a-zA-Z0-9_-]`, and `fetchTranscript` takes the early
`Invalid YouTube URL` exit (no `yt-dlp` subprocess) exactly when the id
extraction returns `null`. -/
theorem c10_video_id (url : String) :
    (∀ s, extractVideoId url = some s →
      s.data.length = 11 ∧ s.data.all idChar = true) ∧
    (fetchTranscriptAction url = FetchAction.invalidUrl ↔ extractVideoId url = none) := by
  constructor
  · intro s hs
    unfold extractVideoId at hs
    cases hf : findVideoId url.data with
    | some cap =>
      rw [hf] at hs
      cases hs
      exact findVideoId_spec hf
    | none =>
      rw [hf] at hs
      by_cases hcond : (decide (url.data.length = 11) && url.data.all idChar) = true
      · rw [if_pos hcond] at hs
        injection hs with h2
        subst h2
        simp only [Bool.and_eq_true, decide_eq_true_eq] at hcond
        exact ⟨hcond.1, hcond.2⟩
      · rw [if_neg hcond] at hs
        exact absurd hs (by simp)
  · unfold fetchTranscriptAction
    cases extractVideoId url <;> simp

/-- Witness for C10 at a concrete URL: the id extracted from a
`youtu.be` link has the claimed shape. -/
theorem c10_video_id_witness :
    ("dQw4w9WgXcQ" : String).data.length = 11 ∧
    ("dQw4w9WgXcQ" : String).data.all idChar = true :=
  (c10_video_id "https://youtu.be/dQw4w9WgXcQ").1 "dQw4w9WgXcQ" (by rfl)

theorem parseVTTStep_eq (acc : List String) (l : String) :
    parseVTTStep acc l =
      (match cleanLine l with
       | some c => if acc.contains c then acc else acc ++ [c]
       | none => acc) := by
  simp only [parseVTTStep, cleanLine]
  by_cases h1 : (jsTrim l != "" && !strContainsB (jsTrim l) "-->" &&
      !jsStartsWith (jsTrim l) "WEBVTT" && !(jsTrim l).data.all Char.isDigit) = true
  · rw [if_pos h1, if_pos h1]
    cases hcl : (jsTrim (stripTagsStr (jsTrim l)) != "") with
    | true =>
      cases hco : acc.contains (jsTrim (stripTagsStr (jsTrim l))) with
      | true =>
        have hmem : jsTrim (stripTagsStr (jsTrim l)) ∈ acc := by simpa using hco
        simp [hmem]
      | false =>
        have hmem : jsTrim (stripTagsStr (jsTrim l)) ∉ acc := by simpa using hco
        simp [hmem]
    | false => simp
  · rw [if_neg h1, if_neg h1]

theorem parseVTT_fold_decompose (lines : List String) : ∀ acc : List String,
    lines.foldl parseVTTStep acc =
      (lines.filterMap cleanLine).foldl
        (fun a l => if a.contains l then a else a ++ [l]) acc := by
  induction lines with
  | nil => intro acc; rfl
  | cons l ls ih =>
    intro acc
    rw [List.foldl_cons, parseVTTStep_eq]
    cases hcl : cleanLine l with
    | none => simp only [List.filterMap_cons, hcl]; exact ih acc
    | some c =>
      simp only [List.filterMap_cons, hcl, List.foldl_cons]
      exact ih _

/-- Claim C8, counterexample: on the three cue lines `A`, `B`, `A` the
parser's deduplication is global (`!textLines.includes(cleaned)`), so
the second `A` is dropped even though it is not consecutive with the
first; the claimed consecutive-only deduplication would keep it. -/
theorem c8_counterexample :
    parseVTT "A\nB\nA" = "A B" ∧ specParseVTTConsecutive "A\nB\nA" = "A B A" :=
  ⟨rfl, rfl⟩

/-- Claim C8, amended: `_parseVTT` drops cue-timing lines (containing
`-->`), `WEBVTT` header lines and purely numeric cue indices, strips
markup tags and trims each remaining line, deduplicates every line equal
to *any* earlier retained line (global keep-first deduplication, not
only consecutive duplicates), and joins the survivors with single
spaces. -/
theorem c8_amended (vtt : String) :
    parseVTT vtt = joinSpace (dedupKeepFirst
      (((splitOnChar '\n' vtt.data).map String.mk).filterMap cleanLine)) := by
  unfold parseVTT dedupKeepFirst
  exact congrArg joinSpace (parseVTT_fold_decompose _ [])

theorem parseResultsLoop_length {l : List Json} : ∀ {acc res : List SearchRec},
    parseResultsLoop l acc = Except.ok res → res.length ≤ acc.length + l.length := by
  induction l with
  | nil =>
    intro acc res h
    unfold parseResultsLoop at h
    cases h
    simp
  | cons r rs ih =>
    intro acc res h
    unfold parseResultsLoop at h
    repeat' split at h
    all_goals try exact absurd h (by simp)
    all_goals
      have hh := ih h
      simp only [List.length_append, List.length_cons, List.length_singleton,
        List.length_nil] at hh ⊢
      omega

theorem formatLoop_mono {pat : String} : ∀ (rs : List SearchRec) (i : Nat) (acc : String),
    strContainsB acc pat = true → strContainsB (formatLoop rs i acc) pat = true := by
  intro rs
  induction rs with
  | nil => intro i acc h; exact h
  | cons r rs2 ih =>
    intro i acc h
    exact ih _ _ (strContainsB_mono_right _ h)

/-- Claim C9: the web-search executor parses at most 5 records from the
results envelope (skipping entries whose `title` or `url` is not
truthy), stamps both the populated and the empty rendering with the
current timestamp, returns a distinct fixed "No results found" block
(not an error) for an empty result set, closes the populated block with
the instruction sentence, and the orchestration loop's wrapper around
the block tells the model to use ONLY the search results. -/
theorem c9_search_results :
    (∀ data : Json, ∀ res : List SearchRec,
      parseResults data = Except.ok res → res.length ≤ 5) ∧
    (∀ results : List SearchRec, ∀ query now : String,
      strContainsB (formatResults results query now) now = true) ∧
    (∀ query now : String,
      formatResults [] query now =
        "[WEB SEARCH RESULTS - Current time: " ++ now ++ "]\n\nSearch query: \"" ++ query ++
          "\"\n\nNo results found. Please answer based on your general knowledge and inform the user that you don\x27t have access to current real-time data for this query.\n\n[END SEARCH RESULTS]") ∧
    (∀ r : SearchRec, ∀ rs : List SearchRec, ∀ query now : String,
      strContainsB (formatResults (r :: rs) query now)
        "Please use the above information to answer the user\x27s question." = true) ∧
    (∀ now results : String,
      strContainsB (searchTurnContent now results) "Using ONLY the search results above" = true) := by
  refine ⟨?_, ?_, ?_, ?_, ?_⟩
  · intro data res h
    unfold parseResults at h
    split at h
    · exact absurd h (by simp)
    · split at h
      · rename_i rs2 hheq
        have hh := parseResultsLoop_length h
        have ht : (List.take 5 rs2).length ≤ 5 := by
          rw [List.length_take]
          exact min_le_left _ _
        simp only [List.length_nil, Nat.zero_add] at hh
        exact le_trans hh ht
      · cases h
        simp
  · intro results query now
    cases results with
    | nil =>
      exact strContainsB_mono_right _ (strContainsB_mono_right _
        (strContainsB_mono_right _ (strContainsB_suffix _ _)))
    | cons r rs =>
      unfold formatResults
      rw [if_neg (by simp)]
      refine strContainsB_mono_right _ (formatLoop_mono _ _ _ ?_)
      exact strContainsB_mono_right _ (strContainsB_mono_right _
        (strContainsB_mono_right _ (strContainsB_suffix _ _)))
  · intro query now
    rfl
  · intro r rs query now
    unfold formatResults
    rw [if_neg (by simp)]
    exact strContainsB_mono_left _ (by rfl)
  · intro now results
    refine strContainsB_mono_right _ (strContainsB_mono_right _
      (strContainsB_mono_left _ ?_))
    rfl

/-- Witness for C9's hypothesis-guarded conjunct at a concrete envelope
with 7 entries (one without a `url`): at most 5 records are parsed. -/
theorem c9_search_results_witness :
    ([⟨Json.str "t1", Json.str "s1", Json.str "u1"⟩,
      ⟨Json.str "t2", Json.str "", Json.str "u2"⟩,
      ⟨Json.str "t4", Json.str "", Json.str "u4"⟩,
      ⟨Json.str "t5", Json.str "", Json.str "u5"⟩] : List SearchRec).length ≤ 5 :=
  (c9_search_results).1
    (Json.obj [("results", Json.arr [
      Json.obj [("title", Json.str "t1"), ("url", Json.str "u1"),
        ("content", Json.str "s1")],
      Json.obj [("title", Json.str "t2"), ("url", Json.str "u2")],
      Json.obj [("title", Json.str "t3")],
      Json.obj [("title", Json.str "t4"), ("url", Json.str "u4")],
      Json.obj [("title", Json.str "t5"), ("url", Json.str "u5")],
      Json.obj [("title", Json.str "t6"), ("url", Json.str "u6")],
      Json.obj [("title", Json.str "t7"), ("url", Json.str "u7")]])])
    _ (by rfl)

theorem jsGet_total_of_truthy {v : Option Json} (h : jsTruthy v = true) (k : String) :
    ∃ w, jsGet v k = Except.ok w := by
  cases v with
  | none => simp [jsTruthy] at h
  | some j =>
    cases j with
    | null => simp [jsTruthy, jsTruthyJson] at h
    | bool b => exact ⟨_, rfl⟩
    | num q => exact ⟨_, rfl⟩
    | str s => exact ⟨_, rfl⟩
    | arr xs => exact ⟨_, rfl⟩
    | obj fs => exact ⟨_, rfl⟩

theorem ollamaFallbackText_total (fs : List (String × Json)) :
    ∃ v, ollamaFallbackText (Json.obj fs) = Except.ok v := by
  unfold ollamaFallbackText
  simp only [jsGetProp]
  split
  · exact ⟨_, rfl⟩
  · split
    · exact ⟨_, rfl⟩
    · split
      · exact ⟨_, rfl⟩
      · exact ⟨_, rfl⟩

/-- Claim C2, counterexample: the claim says every adapter's
`_extractResponseText` is total with `""` for missing fields, but the
OpenAI and Gemini extractors dereference
`response.choices[0].message.content` /
`response.candidates[0].content.parts[0].text` unguarded, so on the
well-formed JSON response `{}` they throw a TypeError instead of
returning `""`. -/
theorem c2_counterexample :
    openaiExtractResponseText (Json.obj []) = Except.error () ∧
    geminiExtractResponseText (Json.obj []) = Except.error () :=
  ⟨rfl, rfl⟩

/-- Claim C2, amended: response-text extraction is total only for the
Anthropic and Ollama adapters (Anthropic returns `""` whenever the
`content` field is absent; Ollama always returns a value on object
responses); the OpenAI, OpenRouter, Groq and Gemini extractors throw on
any object response missing `choices` / `candidates`. -/
theorem c2_amended :
    (∀ fs : List (String × Json), jsLookup "choices" fs = none →
      openaiExtractResponseText (Json.obj fs) = Except.error () ∧
      openrouterExtractResponseText (Json.obj fs) = Except.error () ∧
      groqExtractResponseText (Json.obj fs) = Except.error ()) ∧
    (∀ fs : List (String × Json), jsLookup "candidates" fs = none →
      geminiExtractResponseText (Json.obj fs) = Except.error ()) ∧
    (∀ fs : List (String × Json), jsLookup "content" fs = none →
      anthropicExtractResponseText (Json.obj fs) = Except.ok (some (Json.str ""))) ∧
    (∀ fs : List (String × Json), ∃ v,
      ollamaExtractResponseText (Json.obj fs) = Except.ok v) := by
  refine ⟨?_, ?_, ?_, ?_⟩
  · intro fs h
    refine ⟨?_, ?_, ?_⟩ <;>
      simp [openaiExtractResponseText, openrouterExtractResponseText,
        groqExtractResponseText, jsGetProp, h, jsIndex]
  · intro fs h
    simp [geminiExtractResponseText, jsGetProp, h, jsIndex]
  · intro fs h
    simp [anthropicExtractResponseText, jsGetProp, h]
  · intro fs
    unfold ollamaExtractResponseText
    simp only [jsGetProp]
    by_cases hm : jsTruthy (jsLookup "message" fs) = true
    · rw [if_pos hm]
      obtain ⟨w, hw⟩ := jsGet_total_of_truthy hm "content"
      rw [hw]
      cases w with
      | none => exact ollamaFallbackText_total fs
      | some jw =>
        cases jw with
        | str s => exact ⟨ollamaThinkText s, rfl⟩
        | null => exact ollamaFallbackText_total fs
        | bool b => exact ollamaFallbackText_total fs
        | num q => exact ollamaFallbackText_total fs
        | arr xs => exact ollamaFallbackText_total fs
        | obj ofs => exact ollamaFallbackText_total fs
    · rw [if_neg hm]
      exact ollamaFallbackText_total fs

/-- Witness for C2's amended statement at the concrete object
`{"foo": null}`, which lacks all of the expected envelope fields. -/
theorem c2_amended_witness :
    (openaiExtractResponseText (Json.obj [("foo", Json.null)]) = Except.error () ∧
      openrouterExtractResponseText (Json.obj [("foo", Json.null)]) = Except.error () ∧
      groqExtractResponseText (Json.obj [("foo", Json.null)]) = Except.error ()) ∧
    geminiExtractResponseText (Json.obj [("foo", Json.null)]) = Except.error () ∧
    anthropicExtractResponseText (Json.obj [("foo", Json.null)]) =
      Except.ok (some (Json.str "")) ∧
    (∃ v, ollamaExtractResponseText (Json.obj [("foo", Json.null)]) = Except.ok v) :=
  ⟨c2_amended.1 _ (by rfl),
   c2_amended.2.1 _ (by rfl),
   c2_amended.2.2.1 _ (by rfl),
   c2_amended.2.2.2 _⟩

theorem handleToolCalls_unknown (env : ToolEnv) (tc : ToolCall) (rest : List ToolCall)
    (st : ExtState)
    (h1 : jsIsStr tc.name "web_search" = false)
    (h2 : jsIsStr tc.name "youtube_summary" = false)
    (hd : st.toolCallDepth < maxToolCallDepth) :
    handleToolCalls env (tc :: rest) st =
      ({ st with
          toolCallDepth := 0,
          displayed := st.displayed ++
            [DisplayEvent.error ("Unknown tool requested: " ++ jsTemplate tc.name) false] },
        StepOutcome.halt) := by
  unfold handleToolCalls
  rw [if_neg (not_le.mpr hd)]
  simp only [List.head?]
  rw [h1, h2]
  simp

theorem anthropicFindToolUse_len : ∀ {blocks : List Json} {tcs : List ToolCall},
    anthropicFindToolUse blocks = Except.ok (some tcs) → tcs.length ≤ 1 := by
  intro blocks
  induction blocks with
  | nil =>
    intro tcs h
    unfold anthropicFindToolUse at h
    simp at h
  | cons b bs ih =>
    intro tcs h
    unfold anthropicFindToolUse at h
    repeat' split at h
    all_goals
      first
        | (cases h <;> simp)
        | exact ih h

/-- Claim C5: per round, `_handleToolCalls` acts only on `toolCalls[0]`;
its entire result (history, depth counter, display log, outcome) is
independent of any further entries in the list, and the Anthropic
extractor cited by the spec produces at most one `ToolCallRequest` per
response in the first place. -/
theorem c5_first_tool_call_wins :
    (∀ (env : ToolEnv) (tc : ToolCall) (rest : List ToolCall) (st : ExtState),
      handleToolCalls env (tc :: rest) st = handleToolCalls env [tc] st) ∧
    (∀ (resp : Json) (tcs : List ToolCall),
      anthropicExtractToolCalls resp = Except.ok (some tcs) → tcs.length ≤ 1) := by
  constructor
  · intro env tc rest st
    rfl
  · intro resp tcs h
    unfold anthropicExtractToolCalls at h
    repeat' split at h
    all_goals
      first
        | (cases h <;> simp)
        | exact anthropicFindToolUse_len h

/-- Claim C4: when the first extracted tool call names neither
`web_search` nor `youtube_summary` (web search enabled, depth below the
limit), the callback displays `Unknown tool requested: ...`, leaves the
history exactly as it was before the response was handled, resets the
depth counter, and halts without issuing another request. -/
theorem c4_unknown_tool (P : ProviderModel) (env : ToolEnv) (resp : Json)
    (st : ExtState) (tc : ToolCall) (rest : List ToolCall)
    (hex : P.extractToolCalls resp = Except.ok (some (tc :: rest)))
    (h1 : jsIsStr tc.name "web_search" = false)
    (h2 : jsIsStr tc.name "youtube_summary" = false)
    (hd : st.toolCallDepth < maxToolCallDepth) :
    extCallback P env true resp st =
      ({ st with
          toolCallDepth := 0,
          displayed := st.displayed ++
            [DisplayEvent.error ("Unknown tool requested: " ++ jsTemplate tc.name) false] },
        StepOutcome.halt) := by
  have hm : (match P.extractToolCalls resp with
             | Except.error _ => none
             | Except.ok v => v) = some (tc :: rest) := by rw [hex]
  simp only [extCallback]
  rw [hm]
  have hcond : 0 < ((some (tc :: rest)).getD []).length ∧ True ∧
      st.toolCallDepth < maxToolCallDepth := ⟨by simp, trivial, hd⟩
  rw [if_pos hcond]
  exact handleToolCalls_unknown env tc rest st h1 h2 hd

/-- Witness for C4: a response whose only tool call is
`delete_database` produces the unknown-tool error, zero history
mutation and no retry. -/
theorem c4_unknown_tool_witness :
    extCallback anthropicProviderModel
      ⟨fun _ => Except.ok "R", fun _ => Except.ok "T", "NOW"⟩ true
      (Json.obj [("content", Json.arr [Json.obj [("type", Json.str "tool_use"),
        ("id", Json.str "t1"), ("name", Json.str "delete_database"),
        ("input", Json.obj [])]])])
      ⟨[⟨Role.user, "please"⟩], 0, []⟩ =
      (⟨[⟨Role.user, "please"⟩], 0,
        [DisplayEvent.error "Unknown tool requested: delete_database" false]⟩,
       StepOutcome.halt) :=
  c4_unknown_tool anthropicProviderModel
    ⟨fun _ => Except.ok "R", fun _ => Except.ok "T", "NOW"⟩
    (Json.obj [("content", Json.arr [Json.obj [("type", Json.str "tool_use"),
      ("id", Json.str "t1"), ("name", Json.str "delete_database"),
      ("input", Json.obj [])]])])
    ⟨[⟨Role.user, "please"⟩], 0, []⟩
    ⟨some (Json.str "t1"), some (Json.str "delete_database"), some (Json.obj [])⟩
    [] (by rfl) (by rfl) (by rfl) (by decide)

/-- Witness for C5 at concrete inputs: a two-element tool-call list is
handled identically to its first element alone, and a concrete
Anthropic `tool_use` response extracts at most one call. -/
theorem c5_first_tool_call_wins_witness :
    handleToolCalls ⟨fun _ => Except.ok "R", fun _ => Except.ok "T", "NOW"⟩
      [⟨some (Json.str "1"), some (Json.str "web_search"),
        some (Json.obj [("query", Json.str "q")])⟩,
       ⟨some (Json.str "2"), some (Json.str "youtube_summary"), some (Json.obj [])⟩]
      ⟨[], 0, []⟩ =
    handleToolCalls ⟨fun _ => Except.ok "R", fun _ => Except.ok "T", "NOW"⟩
      [⟨some (Json.str "1"), some (Json.str "web_search"),
        some (Json.obj [("query", Json.str "q")])⟩]
      ⟨[], 0, []⟩ ∧
    ([⟨some (Json.str "t1"), some (Json.str "web_search"),
      some (Json.obj [("query", Json.str "q")])⟩] : List ToolCall).length ≤ 1 :=
  ⟨c5_first_tool_call_wins.1 _ _ _ _,
   c5_first_tool_call_wins.2
     (Json.obj [("content", Json.arr [Json.obj [("type", Json.str "tool_use"),
       ("id", Json.str "t1"), ("name", Json.str "web_search"),
       ("input", Json.obj [("query", Json.str "q")])]])])
     _ (by rfl)⟩

/-- Claim C1, counterexample: with web search enabled and every provider
response reporting a tool call, after the 3 tool round-trips the claimed
`Failed`/"search limit reached" condition never occurs — the display log
contains no error event at all — and a further (4th appended) turn, the
assistant placeholder, does enter the history: its final length is 5
(1 user turn + 3 injected tool-result turns + 1 assistant turn), not 4. -/
theorem c1_depth_limit_counterexample :
    (runRounds anthropicProviderModel
      ⟨fun _ => Except.ok "R", fun _ => Except.ok "T", "NOW"⟩ true
      (fun _ => anthropicToolCallResponse) 10 0
      ⟨[⟨Role.user, "hi"⟩], 0, []⟩).history.length = 5 ∧
    (runRounds anthropicProviderModel
      ⟨fun _ => Except.ok "R", fun _ => Except.ok "T", "NOW"⟩ true
      (fun _ => anthropicToolCallResponse) 10 0
      ⟨[⟨Role.user, "hi"⟩], 0, []⟩).displayed.all
      (fun e => match e with
        | DisplayEvent.message _ _ => true
        | DisplayEvent.error _ _ => false) = true :=
  ⟨rfl, rfl⟩

/-- Claim C1, amended: from a fresh user turn with web search enabled
and every response reporting a tool call, exactly 3 tool round-trips
run and exactly 3 tool-result turns are injected (not 4); the 4th
tool-call response is then treated as a normal final-text response
(`_sendToLLM`'s callback checks the depth before calling
`_handleToolCalls`, so the "Web search limit reached" error branch is
never reached from this flow): its tool calls are ignored and, the
response having no text, the placeholder assistant turn is appended and
displayed, after which the loop halts without retrying. -/
theorem c1_depth_limit_amended (r now : String) :
    runRounds anthropicProviderModel
      ⟨fun _ => Except.ok r, fun _ => Except.ok "T", now⟩ true
      (fun _ => anthropicToolCallResponse) 10 0
      ⟨[⟨Role.user, "hi"⟩], 0, []⟩ =
    ⟨[⟨Role.user, "hi"⟩,
      ⟨Role.user, searchTurnContent now r⟩,
      ⟨Role.user, searchTurnContent now r⟩,
      ⟨Role.user, searchTurnContent now r⟩,
      ⟨Role.assistant, placeholderText⟩],
     3,
     [DisplayEvent.message Role.assistant (searchingMessage "q"),
      DisplayEvent.message Role.assistant (searchingMessage "q"),
      DisplayEvent.message Role.assistant (searchingMessage "q"),
      DisplayEvent.message Role.assistant placeholderText]⟩ := rfl

theorem mapOption_pairJson : ∀ ps : List (String × String),
    mapOption msgPairOf (ps.map pairJson) = some ps := by
  intro ps
  induction ps with
  | nil => rfl
  | cons p rest ih =>
    simp only [List.map_cons, mapOption, ih]
    rfl

theorem mapOption_geminiPairJson : ∀ ps : List (String × String),
    mapOption geminiPairOf (ps.map geminiPairJson) = some ps := by
  intro ps
  induction ps with
  | nil => rfl
  | cons p rest ih =>
    simp only [List.map_cons, mapOption, ih]
    rfl

theorem map_chatMsgJson (h : List Turn) :
    h.map chatMsgJson = (h.map turnPair).map pairJson := by
  rw [List.map_map]
  rfl

theorem map_geminiMsgJson (h : List Turn) :
    h.map geminiMsgJson = (h.map turnPairG).map geminiPairJson := by
  rw [List.map_map]
  rfl

/-- Claim C6: each adapter's request body lists the history turns in
their original order with roles mapped per that adapter's vocabulary:
Gemini maps Assistant to `"model"` (and, when web search is enabled and
the history is nonempty, splices the `[SYSTEM: ...]` preamble into the
first turn's text), while Anthropic, OpenAI, Groq, OpenRouter and
Ollama map Assistant to `"assistant"`; the OpenAI-style adapters may
prepend a system message and Ollama may append its dummy user message,
but the mapped history always appears contiguously in order, so
re-invoking the builder after appending a user turn and a tool-result
(user) turn includes both turns in that order. -/
theorem c6_role_mapping (model : String) (ews : Bool) (h : List Turn) :
    msgsProj (anthropicGenerateRequestBody model ews h) = some (h.map turnPair) ∧
    msgsProj (openaiGenerateRequestBody model ews h) =
      some ((if ews then [("system", toolSystemText)] else []) ++ h.map turnPair) ∧
    msgsProj (groqGenerateRequestBody model ews h) =
      some ((if ews then [("system", toolSystemText)] else []) ++ h.map turnPair) ∧
    msgsProj (openrouterGenerateRequestBody model ews h) =
      some ((if ews then [("system", toolSystemText)] else []) ++ h.map turnPair) ∧
    contentsProj (geminiGenerateRequestBody model ews h) =
      some (match ews, h with
        | true, t :: ts =>
          (roleStrUM t.role, geminiSysPreamble ++ t.content) :: ts.map turnPairG
        | _, _ => h.map turnPairG) ∧
    msgsProj (ollamaGenerateRequestBody model ews h) =
      some (ollamaMessagePairs model ews h) := by
  refine ⟨?_, ?_, ?_, ?_, ?_, ?_⟩
  · show mapOption msgPairOf (h.map chatMsgJson) = some (h.map turnPair)
    rw [map_chatMsgJson]
    exact mapOption_pairJson _
  · cases ews with
    | false =>
      show mapOption msgPairOf (h.map chatMsgJson) = some (h.map turnPair)
      rw [map_chatMsgJson]
      exact mapOption_pairJson _
    | true =>
      show mapOption msgPairOf
        (pairJson ("system", toolSystemText) :: h.map chatMsgJson) =
        some (("system", toolSystemText) :: h.map turnPair)
      rw [map_chatMsgJson]
      exact mapOption_pairJson (("system", toolSystemText) :: h.map turnPair)
  · cases ews with
    | false =>
      show mapOption msgPairOf (h.map chatMsgJson) = some (h.map turnPair)
      rw [map_chatMsgJson]
      exact mapOption_pairJson _
    | true =>
      show mapOption msgPairOf
        (pairJson ("system", toolSystemText) :: h.map chatMsgJson) =
        some (("system", toolSystemText) :: h.map turnPair)
      rw [map_chatMsgJson]
      exact mapOption_pairJson (("system", toolSystemText) :: h.map turnPair)
  · cases ews with
    | false =>
      show mapOption msgPairOf (h.map chatMsgJson) = some (h.map turnPair)
      rw [map_chatMsgJson]
      exact mapOption_pairJson _
    | true =>
      show mapOption msgPairOf
        (pairJson ("system", toolSystemText) :: h.map chatMsgJson) =
        some (("system", toolSystemText) :: h.map turnPair)
      rw [map_chatMsgJson]
      exact mapOption_pairJson (("system", toolSystemText) :: h.map turnPair)
  · cases ews with
    | false =>
      show mapOption geminiPairOf (h.map geminiMsgJson) = some (h.map turnPairG)
      rw [map_geminiMsgJson]
      exact mapOption_geminiPairJson _
    | true =>
      cases h with
      | nil => rfl
      | cons t ts =>
        show mapOption geminiPairOf
          (geminiMsgJson ⟨t.role, geminiSysPreamble ++ t.content⟩ ::
            ts.map geminiMsgJson) =
          some ((roleStrUM t.role, geminiSysPreamble ++ t.content) :: ts.map turnPairG)
        rw [map_geminiMsgJson]
        exact mapOption_geminiPairJson
          ((roleStrUM t.role, geminiSysPreamble ++ t.content) :: ts.map turnPairG)
  · show mapOption msgPairOf ((ollamaMessagePairs model ews h).map pairJson) =
      some (ollamaMessagePairs model ews h)
    exact mapOption_pairJson _

/-- Claim C7, counterexample: the claim says every adapter's body for an
empty history has an empty or absent messages list, but the Ollama
builder pushes its fallback dummy user message (`{role: 'user',
content: ''}`) whenever the list is empty or does not end in a user
message, so even with web search disabled its messages list is
nonempty. -/
theorem c7_empty_history_counterexample :
    msgsProj (ollamaGenerateRequestBody "llama3.1" false []) = some [("user", "")] ∧
    ollamaMessagePairs "llama3.1" false [] ≠ [] :=
  ⟨rfl, by decide⟩

/-- Claim C7, amended: on an empty history every builder is total and
produces a schema-conformant body; the messages/contents list is empty
for Anthropic and Gemini (Anthropic's system prompt lives in a separate
`system` field), contains exactly the injected system message for
OpenAI, Groq and OpenRouter when web search is enabled (empty
otherwise), and for Ollama additionally ends with the dummy empty user
message, hence is never empty. -/
theorem c7_empty_history_amended (model : String) (ews : Bool) :
    isValidChatBody (anthropicGenerateRequestBody model ews []) = true ∧
    msgsProj (anthropicGenerateRequestBody model ews []) = some [] ∧
    isValidChatBody (openaiGenerateRequestBody model ews []) = true ∧
    msgsProj (openaiGenerateRequestBody model ews []) =
      some (if ews then [("system", toolSystemText)] else []) ∧
    isValidChatBody (groqGenerateRequestBody model ews []) = true ∧
    msgsProj (groqGenerateRequestBody model ews []) =
      some (if ews then [("system", toolSystemText)] else []) ∧
    isValidChatBody (openrouterGenerateRequestBody model ews []) = true ∧
    msgsProj (openrouterGenerateRequestBody model ews []) =
      some (if ews then [("system", toolSystemText)] else []) ∧
    isValidGeminiBody (geminiGenerateRequestBody model ews []) = true ∧
    contentsProj (geminiGenerateRequestBody model ews []) = some [] ∧
    isValidChatBody (ollamaGenerateRequestBody model ews []) = true ∧
    msgsProj (ollamaGenerateRequestBody model ews []) =
      some ((if ews && ollamaSupportsTools model then [("system", toolSystemText)]
        else []) ++ [("user", "")]) := by
  refine ⟨?_, ?_, ?_, ?_, ?_, ?_, ?_, ?_, ?_, ?_, ?_, ?_⟩
  · cases ews <;> rfl
  · cases ews <;> rfl
  · cases ews <;> rfl
  · cases ews <;> rfl
  · cases ews <;> rfl
  · cases ews <;> rfl
  · cases ews <;> rfl
  · cases ews <;> rfl
  · cases ews <;> rfl
  · cases ews <;> rfl
  · cases ews with
    | false => rfl
    | true =>
      cases hs : ollamaSupportsTools model with
      | false =>
        unfold isValidChatBody ollamaGenerateRequestBody ollamaMessagePairs
        rw [hs]
        rfl
      | true =>
        unfold isValidChatBody ollamaGenerateRequestBody ollamaMessagePairs
        rw [hs]
        rfl
  · cases ews with
    | false => rfl
    | true =>
      cases hs : ollamaSupportsTools model with
      | false =>
        unfold msgsProj ollamaGenerateRequestBody ollamaMessagePairs
        rw [hs]
        rfl
      | true =>
        unfold msgsProj ollamaGenerateRequestBody ollamaMessagePairs
        rw [hs]
        rfl
